import Mathlib

/-
Shallow embedding of src/grafana_utils/api_key_generator.py.

Modelling conventions:
- JSON values are the inductive `J`; JSON numbers are modelled as integers
  (the script only ever handles integral ids).
- `json.loads` / `json.load` applied to arbitrary bytes either yields a JSON
  value or raises JSONDecodeError; a file's bytes are therefore abstracted as
  `FileContent`: absent, malformed (bytes that do not parse as JSON), or a
  parsed JSON value.
- Python dynamic operations (`x in data`, `data[k]`, `int(x)`, iteration)
  are embedded with their Python error semantics via `Except PyErr`.
- The remote Grafana server is an oracle `Remote` giving the response body of
  each endpoint the script calls (each endpoint is hit at most once per run).
- Network traffic is tracked as a `List NetCall` so that "zero network calls"
  is a provable statement.
- The script uses a single api-key file path per run, so the file system is
  modelled as the content at that path.
-/

namespace ApiKeyGen

/-- JSON values, with numbers restricted to integers. -/
inductive J where
  | null
  | jbool (b : Bool)
  | jnum (n : Int)
  | jstr (s : String)
  | jarr (xs : List J)
  | jobj (fields : List (String × J))

/-- Python exceptions that the embedded code can raise.  The first four are
builtin Python exceptions; the rest are the script's own exception classes. -/
inductive PyErr where
  | typeError
  | valueError
  | keyError (k : String)
  | indexError
  | missingArgumentError (arg : String)
  | invalidUsernameOrPasswordError (msg : J)
  | createAPITokenError (msg : J)
  | organizationError (msg : String)

/-- Python equality test between a JSON value and a Python string: only a
string compares equal to a string (no error, just False otherwise). -/
def pyEqStr (v : J) (s : String) : Bool :=
  match v with
  | .jstr t => t = s
  | _ => false

/-- Is `needle` a leading segment of `hay`. -/
def listHasPre (needle hay : List Char) : Bool :=
  match needle, hay with
  | [], _ => true
  | _ :: _, [] => false
  | a :: as, b :: bs => a = b && listHasPre as bs

/-- Does `needle` occur contiguously inside `hay`. -/
def listHasSub (needle hay : List Char) : Bool :=
  match hay with
  | [] => listHasPre needle []
  | _ :: bs => listHasPre needle hay || listHasSub needle bs

/-- Python substring containment, `needle in hay` for two strs. -/
def pyInStr (needle hay : String) : Bool :=
  listHasSub needle.toList hay.toList

/-- Python `k in data`: key membership for a dict, element equality for a
list, substring test for a str; TypeError on non-iterables. -/
def pyContains (data : J) (k : String) : Except PyErr Bool :=
  match data with
  | .jobj fields => .ok (fields.any fun p => p.1 = k)
  | .jarr xs => .ok (xs.any fun x => pyEqStr x k)
  | .jstr s => .ok (pyInStr k s)
  | _ => .error .typeError

/-- Python `data[k]` with a str key: dict lookup (KeyError when absent),
TypeError on every other value. -/
def pyIndexStr (data : J) (k : String) : Except PyErr J :=
  match data with
  | .jobj fields =>
    match fields.find? (fun p => p.1 = k) with
    | some p => .ok p.2
    | none => .error (.keyError k)
  | _ => .error .typeError

/-- Python `int(x)`: identity on ints, parse for strs (ValueError when not a
numeral), 0/1 for bools, TypeError otherwise. -/
def pyInt (v : J) : Except PyErr Int :=
  match v with
  | .jnum n => .ok n
  | .jstr s =>
    match s.toInt? with
    | some n => .ok n
    | none => .error .valueError
  | .jbool b => .ok (if b then 1 else 0)
  | _ => .error .typeError

/-- Python `for x in data`: elements of a list, keys of a dict, characters of
a str; TypeError otherwise. -/
def pyIter (v : J) : Except PyErr (List J) :=
  match v with
  | .jarr xs => .ok xs
  | .jobj fields => .ok (fields.map fun p => J.jstr p.1)
  | .jstr s => .ok (s.toList.map fun c => J.jstr (String.singleton c))
  | _ => .error .typeError

/-- The bytes stored at the api-key file path, abstracted through json.load:
either the file is absent, or its bytes fail to parse (JSONDecodeError), or
they parse to a JSON value. -/
inductive FileContent where
  | absent
  | malformed
  | json (v : J)

/-- Body of check_api_key_file once `data` has been obtained from json.load
(or set to the empty dict on JSONDecodeError):
if "key" in data and "name" in data: if data[name] == name: return True;
return False. -/
def checkData (name : String) (data : J) : Except PyErr Bool :=
  match pyContains data "key" with
  | .error e => .error e
  | .ok false => .ok false
  | .ok true =>
    match pyContains data "name" with
    | .error e => .error e
    | .ok false => .ok false
    | .ok true =>
      match pyIndexStr data "name" with
      | .error e => .error e
      | .ok nv => if pyEqStr nv name then .ok true else .ok false

/-- Embedding of check_api_key_file: True when the file holds a record whose
"key" field is present and whose "name" field equals `name`; a missing file
or a JSONDecodeError yields False (data is then the empty dict). -/
def check_api_key_file (name : String) (file : FileContent) : Except PyErr Bool :=
  match file with
  | .absent => .ok false
  | .malformed => checkData name (J.jobj [])
  | .json v => checkData name v

/-- One network request issued by the script, with the request body where the
script sends one. -/
inductive NetCall where
  | postOrgs (body : J)
  | getOrgs
  | postUserUsing (orgId : Option Int)
  | postAuthKeys (body : J)

/-- The remote Grafana server, as the response bodies of the four endpoints
the script can hit during one run.  The issue-key response may depend on the
requested key name. -/
structure Remote where
  createOrgResp : J
  listOrgsResp : J
  switchResp : J
  issueKeyResp : String → J

/-- The `for org in data` loop of post_org: first entry whose "name" equals
the requested name yields int(org[id]); falling off the loop yields None. -/
def scanOrgs (name : String) : List J → Except PyErr (Option Int)
  | [] => .ok none
  | org :: rest =>
    match pyIndexStr org "name" with
    | .error e => .error e
    | .ok nv =>
      if pyEqStr nv name then
        match pyIndexStr org "id" with
        | .error e => .error e
        | .ok idv =>
          match pyInt idv with
          | .error e => .error e
          | .ok i => .ok (some i)
      else scanOrgs name rest

/-- Embedding of post_org.  Dispatch on data[message] of the create response
(KeyError when the body has no message field); on "Organization name taken"
list the organizations and scan; on "Organization created" return
int(data[orgId]); on "invalid username or password" raise; any other message
falls through all three ifs and returns None. -/
def post_org (name : String) (remote : Remote) : List NetCall × Except PyErr (Option Int) :=
  let data := remote.createOrgResp
  let callsCreate : List NetCall := [NetCall.postOrgs (J.jobj [("name", J.jstr name)])]
  match pyIndexStr data "message" with
  | .error e => (callsCreate, .error e)
  | .ok msg =>
    if pyEqStr msg "Organization name taken" then
      match pyIter remote.listOrgsResp with
      | .error e => (callsCreate ++ [NetCall.getOrgs], .error e)
      | .ok orgs => (callsCreate ++ [NetCall.getOrgs], scanOrgs name orgs)
    else if pyEqStr msg "Organization created" then
      (callsCreate,
        match pyIndexStr data "orgId" with
        | .error e => .error e
        | .ok v =>
          match pyInt v with
          | .error e => .error e
          | .ok i => .ok (some i))
    else if pyEqStr msg "invalid username or password" then
      (callsCreate, .error (.invalidUsernameOrPasswordError msg))
    else
      (callsCreate, .ok none)

/-- Embedding of switch_org: raises OrganizationError unless the response
carries message == "Active organization changed".  The org id interpolated
into the URL may be Python None, hence `Option Int`. -/
def switch_org (org_id : Option Int) (remote : Remote) : List NetCall × Except PyErr Unit :=
  let data := remote.switchResp
  ([NetCall.postUserUsing org_id],
    match pyContains data "message" with
    | .error e => .error e
    | .ok false => .error (.organizationError "Message response missing!")
    | .ok true =>
      match pyIndexStr data "message" with
      | .error e => .error e
      | .ok m =>
        if pyEqStr m "Active organization changed" then .ok ()
        else .error (.organizationError "Message response missing!"))

/-- Embedding of create_api_token: a body with a message field raises
CreateAPITokenError(data[message]); else a body with a key field is returned;
else the function falls off its end and returns None. -/
def create_api_token (name : String) (remote : Remote) : List NetCall × Except PyErr (Option J) :=
  let data := remote.issueKeyResp name
  ([NetCall.postAuthKeys (J.jobj [("name", J.jstr name), ("role", J.jstr "Admin")])],
    match pyContains data "message" with
    | .error e => .error e
    | .ok true =>
      match pyIndexStr data "message" with
      | .error e => .error e
      | .ok m => .error (.createAPITokenError m)
    | .ok false =>
      match pyContains data "key" with
      | .error e => .error e
      | .ok true => .ok (some data)
      | .ok false => .ok none)

/-- GRAFANA_PORT starts as the int 3000 and becomes the raw string argument
when -P is passed. -/
inductive PortVal where
  | int (n : Int)
  | str (s : String)

/-- The mutable configuration locals of main after argument parsing. -/
structure Config where
  name : String
  user : String
  password : String
  host : String
  port : PortVal
  apiKeyFile : Option String

/-- The initial values of the configuration locals in main. -/
def defaultConfig : Config :=
  { name := "trusted", user := "admin", password := "admin",
    host := "localhost", port := PortVal.int 3000, apiKeyFile := none }

/-- Result of the while-loop over argv: -h exits immediately, a flag in last
position raises IndexError reading args[1], otherwise a final configuration. -/
inductive ParseOutcome where
  | helpExit
  | indexError
  | ok (cfg : Config)

/-- Embedding of the argument-parsing while loop of main.  Each iteration
examines args[0]; a recognized flag reads args[1]; only args[0] is deleted,
so a flag value is itself examined as a potential flag on the next pass.
There is no branch for -o or --org. -/
def parseLoop (cfg : Config) : List String → ParseOutcome
  | [] => .ok cfg
  | a :: rest =>
    if a = "-h" ∨ a = "--help" then .helpExit
    else if a = "-H" ∨ a = "--host" then
      match rest with
      | [] => .indexError
      | v :: _ => parseLoop { cfg with host := v } rest
    else if a = "-P" ∨ a = "--port" then
      match rest with
      | [] => .indexError
      | v :: _ => parseLoop { cfg with port := PortVal.str v } rest
    else if a = "-u" ∨ a = "--user" then
      match rest with
      | [] => .indexError
      | v :: _ => parseLoop { cfg with user := v } rest
    else if a = "-p" ∨ a = "--pass" then
      match rest with
      | [] => .indexError
      | v :: _ => parseLoop { cfg with password := v } rest
    else if a = "-n" ∨ a = "--name" then
      match rest with
      | [] => .indexError
      | v :: _ => parseLoop { cfg with name := v } rest
    else if a = "-f" ∨ a = "--file" then
      match rest with
      | [] => .indexError
      | v :: _ => parseLoop { cfg with apiKeyFile := some v } rest
    else parseLoop cfg rest

/-- Embedding of check_arguments: raises MissingArgumentError when any of
the listed arguments is None.  At the call site in main only api_key_file
can still be None (every other local has a non-None default and argument
values are strings), so the check reduces to the api_key_file test. -/
def check_arguments (name user password host : String) (port : PortVal)
    (api_key_file : Option String) : Except PyErr Unit :=
  match api_key_file with
  | none => .error (.missingArgumentError "api_key_file")
  | some _ => .ok ()

/-- json.dump of a record to the api-key file (sort_keys changes only the
textual field order, not the parsed value). -/
def persist (record : J) : FileContent := FileContent.json record

/-- How a run of main ends: a returned status dict, SystemExit raised from a
caught exception, the help early exit, or an uncaught exception. -/
inductive MainOutcome where
  | status (success : Bool) (message : String)
  | sysExit (e : PyErr)
  | helpExit
  | crash (e : PyErr)

/-- Observable result of one run of main: the network calls issued, the
final content of the api-key file, how many times it was written, and how
the run ended. -/
structure RunResult where
  calls : List NetCall
  file : FileContent
  fileWrites : Nat
  outcome : MainOutcome

/-- Embedding of main: parse arguments, check them, short-circuit when the
api key file already matches, else resolve the organization, switch to it,
issue the key, dump it to the file (json.dump(None) writes null), and
re-check the file.  Each call site catches exactly the exception classes its
try/except names; every other exception propagates out of main. -/
def main (args : List String) (remote : Remote) (file0 : FileContent) : RunResult :=
  match parseLoop defaultConfig args with
  | .helpExit => ⟨[], file0, 0, .helpExit⟩
  | .indexError => ⟨[], file0, 0, .crash .indexError⟩
  | .ok cfg =>
    match check_arguments cfg.name cfg.user cfg.password cfg.host cfg.port cfg.apiKeyFile with
    | .error e => ⟨[], file0, 0, .sysExit e⟩
    | .ok _ =>
      match check_api_key_file cfg.name file0 with
      | .error e => ⟨[], file0, 0, .crash e⟩
      | .ok true => ⟨[], file0, 0, .status true "API key already exists"⟩
      | .ok false =>
        let r1 := post_org cfg.name remote
        match r1.2 with
        | .error e =>
          ⟨r1.1, file0, 0,
            match e with
            | .invalidUsernameOrPasswordError m => .sysExit (.invalidUsernameOrPasswordError m)
            | e2 => .crash e2⟩
        | .ok orgId =>
          let r2 := switch_org orgId remote
          match r2.2 with
          | .error e =>
            ⟨r1.1 ++ r2.1, file0, 0,
              match e with
              | .organizationError m => .sysExit (.organizationError m)
              | e2 => .crash e2⟩
          | .ok _ =>
            let r3 := create_api_token cfg.name remote
            match r3.2 with
            | .error e =>
              ⟨r1.1 ++ r2.1 ++ r3.1, file0, 0,
                match e with
                | .createAPITokenError m => .sysExit (.createAPITokenError m)
                | e2 => .crash e2⟩
            | .ok apiKey =>
              let newFile := persist (match apiKey with | some v => v | none => J.null)
              match check_api_key_file cfg.name newFile with
              | .error e => ⟨r1.1 ++ r2.1 ++ r3.1, newFile, 1, .crash e⟩
              | .ok true => ⟨r1.1 ++ r2.1 ++ r3.1, newFile, 1, .status true "API key created"⟩
              | .ok false => ⟨r1.1 ++ r2.1 ++ r3.1, newFile, 1, .status false "API failed to create"⟩

/-- The process exit code produced by the __main__ block: 0 for the help
exit and a success status, 1 for a failure status, for SystemExit(error) and
for an uncaught exception. -/
def exitCode (o : MainOutcome) : Nat :=
  match o with
  | .helpExit => 0
  | .status success _ => if success then 0 else 1
  | .sysExit _ => 1
  | .crash _ => 1

/-- A remote whose responses are never examined by the runs it is used in. -/
def trivialRemote : Remote :=
  { createOrgResp := J.null, listOrgsResp := J.null, switchResp := J.null,
    issueKeyResp := fun _ => J.null }

/-- A CredentialRecord as json.dump writes it (sort_keys puts the fields in
the order id, key, name). -/
def credRecord (i : Int) (key name : String) : J :=
  J.jobj [("id", J.jnum i), ("key", J.jstr key), ("name", J.jstr name)]

/-- A stored record named "trusted", the default organization name. -/
def validStoredRecord : J := credRecord 1 "abc123" "trusted"

/-- A fresh Grafana server: organization create succeeds with id 1, the
organization list is empty, switching succeeds, and issue-key echoes the
requested key name next to a fresh secret. -/
def freshRemote : Remote :=
  { createOrgResp := J.jobj [("message", J.jstr "Organization created"), ("orgId", J.jnum 1)],
    listOrgsResp := J.jarr [],
    switchResp := J.jobj [("message", J.jstr "Active organization changed")],
    issueKeyResp := fun n => J.jobj [("id", J.jnum 1), ("key", J.jstr "secret"), ("name", J.jstr n)] }

/-- A remote reporting the organization name as taken while listing no
organization at all. -/
def takenEmptyRemote : Remote :=
  { createOrgResp := J.jobj [("message", J.jstr "Organization name taken")],
    listOrgsResp := J.jarr [], switchResp := J.null, issueKeyResp := fun _ => J.null }

/-- A remote reporting the name as taken and listing exactly one
organization, id 7, named "acme". -/
def takenListedRemote : Remote :=
  { createOrgResp := J.jobj [("message", J.jstr "Organization name taken")],
    listOrgsResp := J.jarr [J.jobj [("id", J.jnum 7), ("name", J.jstr "acme")]],
    switchResp := J.null, issueKeyResp := fun _ => J.null }

/-- A remote whose organization-create response carries an unrecognized
message. -/
def oddMessageRemote : Remote :=
  { createOrgResp := J.jobj [("message", J.jstr "Something else")],
    listOrgsResp := J.null, switchResp := J.null, issueKeyResp := fun _ => J.null }

/-- A remote whose organization-create response carries no message field. -/
def noMessageRemote : Remote :=
  { createOrgResp := J.jobj [("orgId", J.jnum 1)],
    listOrgsResp := J.null, switchResp := J.null, issueKeyResp := fun _ => J.null }

/-- A remote whose issue-key response is a rejection message. -/
def rejectIssueRemote : Remote :=
  { createOrgResp := J.null, listOrgsResp := J.null, switchResp := J.null,
    issueKeyResp := fun _ => J.jobj [("message", J.jstr "quota reached")] }

/-- A remote whose issue-key response carries neither a message nor a key
field. -/
def emptyIssueRemote : Remote :=
  { createOrgResp := J.null, listOrgsResp := J.null, switchResp := J.null,
    issueKeyResp := fun _ => J.jobj [] }

/-- A successful Python item lookup implies a successful membership test. -/
theorem pyIndexStr_ok_contains {v : J} {k : String} {w : J}
    (h : pyIndexStr v k = Except.ok w) : pyContains v k = Except.ok true := by
  cases v with
  | jobj fields =>
    simp only [pyIndexStr] at h
    cases hf : fields.find? (fun p => p.1 = k) with
    | none => rw [hf] at h; exact absurd h (by simp)
    | some p =>
      have hmem := List.mem_of_find?_eq_some hf
      have hp := List.find?_some hf
      simp only [pyContains]
      rw [List.any_eq_true.mpr ⟨p, hmem, hp⟩]
  | null => simp [pyIndexStr] at h
  | jbool b => simp [pyIndexStr] at h
  | jnum n => simp [pyIndexStr] at h
  | jstr s => simp [pyIndexStr] at h
  | jarr xs => simp [pyIndexStr] at h

/-- The organization scan skips every leading entry whose name field reads
successfully and differs from the requested name. -/
theorem scanOrgs_append (name : String) (pre rest : List J)
    (h : ∀ org ∈ pre, ∃ v, pyIndexStr org "name" = Except.ok v ∧ pyEqStr v name = false) :
    scanOrgs name (pre ++ rest) = scanOrgs name rest := by
  induction pre with
  | nil => rfl
  | cons org pre ih =>
    obtain ⟨v, hv, hve⟩ := h org (List.mem_cons_self org pre)
    simp only [List.cons_append, scanOrgs, hv, hve]
    exact ih fun b hb => h b (List.mem_cons_of_mem org hb)

/-- When the argument list names neither the help flag nor the file flag,
parsing either hits IndexError or ends with api_key_file still None. -/
theorem parseLoop_no_file (args : List String) :
    ∀ cfg : Config,
      (∀ a ∈ args, ¬(a = "-h" ∨ a = "--help" ∨ a = "-f" ∨ a = "--file")) →
      cfg.apiKeyFile = none →
      parseLoop cfg args = ParseOutcome.indexError
        ∨ ∃ cfg2, parseLoop cfg args = ParseOutcome.ok cfg2 ∧ cfg2.apiKeyFile = none := by
  induction args with
  | nil =>
    intro cfg _ h0
    exact Or.inr ⟨cfg, rfl, h0⟩
  | cons a rest ih =>
    intro cfg hmem h0
    have ha := hmem a (List.mem_cons_self a rest)
    push_neg at ha
    obtain ⟨ha1, ha2, ha3, ha4⟩ := ha
    have hrest := fun b hb => hmem b (List.mem_cons_of_mem a hb)
    simp only [parseLoop]
    rw [if_neg (not_or.mpr ⟨ha1, ha2⟩)]
    by_cases hH : a = "-H" ∨ a = "--host"
    · rw [if_pos hH]
      cases rest with
      | nil => exact Or.inl rfl
      | cons v vs => exact ih { cfg with host := v } hrest h0
    · rw [if_neg hH]
      by_cases hP : a = "-P" ∨ a = "--port"
      · rw [if_pos hP]
        cases rest with
        | nil => exact Or.inl rfl
        | cons v vs => exact ih { cfg with port := PortVal.str v } hrest h0
      · rw [if_neg hP]
        by_cases hu : a = "-u" ∨ a = "--user"
        · rw [if_pos hu]
          cases rest with
          | nil => exact Or.inl rfl
          | cons v vs => exact ih { cfg with user := v } hrest h0
        · rw [if_neg hu]
          by_cases hp : a = "-p" ∨ a = "--pass"
          · rw [if_pos hp]
            cases rest with
            | nil => exact Or.inl rfl
            | cons v vs => exact ih { cfg with password := v } hrest h0
          · rw [if_neg hp]
            by_cases hn : a = "-n" ∨ a = "--name"
            · rw [if_pos hn]
              cases rest with
              | nil => exact Or.inl rfl
              | cons v vs => exact ih { cfg with name := v } hrest h0
            · rw [if_neg hn]
              rw [if_neg (not_or.mpr ⟨ha3, ha4⟩)]
              exact ih cfg hrest h0

/-- When the argument list never names the -n or --name flag, parsing leaves
the organization name untouched. -/
theorem parseLoop_name_const (args : List String) :
    ∀ cfg cfg2 : Config,
      (∀ a ∈ args, ¬(a = "-n" ∨ a = "--name")) →
      parseLoop cfg args = ParseOutcome.ok cfg2 →
      cfg2.name = cfg.name := by
  induction args with
  | nil =>
    intro cfg cfg2 _ hp
    simp only [parseLoop] at hp
    injection hp with h
    exact congrArg Config.name h.symm
  | cons a rest ih =>
    intro cfg cfg2 hmem hp
    have ha := hmem a (List.mem_cons_self a rest)
    push_neg at ha
    obtain ⟨ha1, ha2⟩ := ha
    have hrest := fun b hb => hmem b (List.mem_cons_of_mem a hb)
    simp only [parseLoop] at hp
    by_cases h1 : a = "-h" ∨ a = "--help"
    · rw [if_pos h1] at hp; exact ParseOutcome.noConfusion hp
    · rw [if_neg h1] at hp
      by_cases h2 : a = "-H" ∨ a = "--host"
      · rw [if_pos h2] at hp
        cases rest with
        | nil => exact ParseOutcome.noConfusion hp
        | cons v vs => exact ih { cfg with host := v } cfg2 hrest hp
      · rw [if_neg h2] at hp
        by_cases h3 : a = "-P" ∨ a = "--port"
        · rw [if_pos h3] at hp
          cases rest with
          | nil => exact ParseOutcome.noConfusion hp
          | cons v vs => exact ih { cfg with port := PortVal.str v } cfg2 hrest hp
        · rw [if_neg h3] at hp
          by_cases h4 : a = "-u" ∨ a = "--user"
          · rw [if_pos h4] at hp
            cases rest with
            | nil => exact ParseOutcome.noConfusion hp
            | cons v vs => exact ih { cfg with user := v } cfg2 hrest hp
          · rw [if_neg h4] at hp
            by_cases h5 : a = "-p" ∨ a = "--pass"
            · rw [if_pos h5] at hp
              cases rest with
              | nil => exact ParseOutcome.noConfusion hp
              | cons v vs => exact ih { cfg with password := v } cfg2 hrest hp
            · rw [if_neg h5] at hp
              rw [if_neg (not_or.mpr ⟨ha1, ha2⟩)] at hp
              by_cases h6 : a = "-f" ∨ a = "--file"
              · rw [if_pos h6] at hp
                cases rest with
                | nil => exact ParseOutcome.noConfusion hp
                | cons v vs => exact ih { cfg with apiKeyFile := some v } cfg2 hrest hp
              · rw [if_neg h6] at hp
                exact ih cfg cfg2 hrest hp

/-- A stored object with a key field and a name field equal to the requested
name passes the api-key-file check. -/
theorem checkData_found {v : J} {n : String}
    (hkey : pyContains v "key" = Except.ok true)
    (hname : pyIndexStr v "name" = Except.ok (J.jstr n)) :
    checkData n v = Except.ok true := by
  have hcn := pyIndexStr_ok_contains hname
  simp only [checkData, hkey, hcn, hname, pyEqStr]
  simp

/-- Claim C2 (code_bug): the spec says the existence check returns false on
every byte content, including well-formed JSON of an unrelated structure
such as a top-level number; the code instead evaluates the Python expression
"key" in data on that number, which raises TypeError and aborts the run. -/
theorem C2_run :
    check_api_key_file "acme" (FileContent.json (J.jnum 5)) = Except.error PyErr.typeError :=
  rfl

/-- Claim C3 (confirmed): when the parsed arguments name a store file and
that file holds a record with a key field and a name field equal to the
parsed organization name, main performs zero network calls, writes nothing,
leaves the file as it was, and returns the already-exists success status. -/
theorem C3_thm (args : List String) (remote : Remote) (cfg : Config) (f : String) (v : J)
    (hparse : parseLoop defaultConfig args = ParseOutcome.ok cfg)
    (hfile : cfg.apiKeyFile = some f)
    (hkey : pyContains v "key" = Except.ok true)
    (hname : pyIndexStr v "name" = Except.ok (J.jstr cfg.name)) :
    main args remote (FileContent.json v) =
      { calls := [], file := FileContent.json v, fileWrites := 0,
        outcome := MainOutcome.status true "API key already exists" } := by
  have hcd : checkData cfg.name v = Except.ok true := checkData_found hkey hname
  simp only [main, hparse, check_arguments, hfile, check_api_key_file, hcd]

/-- Witness for C3 at a concrete invocation and store. -/
theorem C3_witness :
    main ["-f", "k.json"] trivialRemote (FileContent.json validStoredRecord) =
      { calls := [], file := FileContent.json validStoredRecord, fileWrites := 0,
        outcome := MainOutcome.status true "API key already exists" } :=
  C3_thm ["-f", "k.json"] trivialRemote { defaultConfig with apiKeyFile := some "k.json" }
    "k.json" validStoredRecord rfl rfl rfl rfl

/-- Claim C4 (confirmed): a CredentialRecord persisted by json.dump and then
checked under the same name passes the existence check, and under any other
name fails it. -/
theorem C4_thm (i : Int) (key name other : String) (hne : other ≠ name) :
    check_api_key_file name (persist (credRecord i key name)) = Except.ok true
    ∧ check_api_key_file other (persist (credRecord i key name)) = Except.ok false := by
  constructor
  · exact checkData_found (v := credRecord i key name) (n := name) rfl rfl
  · have h1 : pyEqStr (J.jstr name) other = false := by
      simp only [pyEqStr, decide_eq_false_iff_not]
      exact Ne.symm hne
    have h2 : pyIndexStr (credRecord i key name) "name" = Except.ok (J.jstr name) := rfl
    have h3 : pyContains (credRecord i key name) "key" = Except.ok true := rfl
    have h4 : pyContains (credRecord i key name) "name" = Except.ok true := rfl
    show checkData other (credRecord i key name) = Except.ok false
    simp only [checkData, h1, h2, h3, h4]
    simp

/-- Witness for C4 at the record of the spec's round-trip example. -/
theorem C4_witness :
    check_api_key_file "acme_apikey" (persist (credRecord 1 "abc123" "acme_apikey"))
        = Except.ok true
    ∧ check_api_key_file "other" (persist (credRecord 1 "abc123" "acme_apikey"))
        = Except.ok false :=
  C4_thm 1 "abc123" "acme_apikey" "other" (by decide)

/-- Claim C6 (code_bug): end-to-end against a fresh remote with organization
name "acme" the run does succeed with status API key created and exit code
0, but the issued and persisted record is named "acme": the _apikey suffix
promised by the help text is never appended, so the stored record does not
carry the name "acme_apikey". -/
theorem C6_run :
    (main ["-n", "acme", "-f", "x.json"] freshRemote FileContent.absent).outcome
        = MainOutcome.status true "API key created"
    ∧ exitCode (main ["-n", "acme", "-f", "x.json"] freshRemote FileContent.absent).outcome = 0
    ∧ (main ["-n", "acme", "-f", "x.json"] freshRemote FileContent.absent).file
        = persist (credRecord 1 "secret" "acme")
    ∧ check_api_key_file "acme_apikey"
        (main ["-n", "acme", "-f", "x.json"] freshRemote FileContent.absent).file
        = Except.ok false :=
  ⟨rfl, rfl, rfl, rfl⟩

/-- Counterexample to C9 as stated: the invocation with argument list -h
omits the store-file path yet exits successfully with code 0 via the help
branch instead of failing with an error. -/
theorem C9_counterexample :
    (main ["-h"] trivialRemote FileContent.absent).outcome = MainOutcome.helpExit
    ∧ exitCode (main ["-h"] trivialRemote FileContent.absent).outcome = 0
    ∧ (main ["-h"] trivialRemote FileContent.absent).calls = [] :=
  ⟨rfl, rfl, rfl⟩

/-- Claim C9 (corrected): an invocation whose arguments omit the store-file
path and do not request help terminates with a nonzero exit code before any
network call is made and before any file is written. -/
theorem C9_amended (args : List String) (remote : Remote) (file0 : FileContent)
    (h : ∀ a ∈ args, ¬(a = "-h" ∨ a = "--help" ∨ a = "-f" ∨ a = "--file")) :
    (main args remote file0).calls = []
    ∧ (main args remote file0).fileWrites = 0
    ∧ exitCode (main args remote file0).outcome = 1 := by
  rcases parseLoop_no_file args defaultConfig h rfl with hp | ⟨cfg2, hp, hnone⟩
  · simp [main, hp, exitCode]
  · simp [main, hp, check_arguments, hnone, exitCode]

/-- Witness for C9 at a concrete argument list with a name but no file. -/
theorem C9_amended_witness :
    (main ["-n", "acme"] trivialRemote FileContent.absent).calls = []
    ∧ (main ["-n", "acme"] trivialRemote FileContent.absent).fileWrites = 0
    ∧ exitCode (main ["-n", "acme"] trivialRemote FileContent.absent).outcome = 1 :=
  C9_amended ["-n", "acme"] trivialRemote FileContent.absent (by decide)

/-- Claim C10 (confirmed): the organization name is set only by -n or
--name; any argument list free of those two strings — in particular one
passing -o or --org, the flag the help text documents — parses to a
configuration whose organization name is still the default "trusted". -/
theorem C10_thm (args : List String) (cfg2 : Config)
    (h : ∀ a ∈ args, ¬(a = "-n" ∨ a = "--name"))
    (hp : parseLoop defaultConfig args = ParseOutcome.ok cfg2) :
    cfg2.name = "trusted" :=
  parseLoop_name_const args defaultConfig cfg2 h hp

/-- Witness for C10 at an argument list using the documented -o flag. -/
theorem C10_witness :
    parseLoop defaultConfig ["-o", "acme", "-f", "k.json"] =
        ParseOutcome.ok { defaultConfig with apiKeyFile := some "k.json" }
    ∧ ({ defaultConfig with apiKeyFile := some "k.json" } : Config).name = "trusted" :=
  ⟨rfl, C10_thm ["-o", "acme", "-f", "k.json"] { defaultConfig with apiKeyFile := some "k.json" }
      (by decide) rfl⟩

/-- Counterexample to C1 as stated: with a name-taken create response and an
empty organization list, post_org returns the success value None — a silent
null — and raises no error of any kind. -/
theorem C1_counterexample :
    pyIndexStr takenEmptyRemote.createOrgResp "message"
        = Except.ok (J.jstr "Organization name taken")
    ∧ takenEmptyRemote.listOrgsResp = J.jarr []
    ∧ (post_org "acme" takenEmptyRemote).2 = Except.ok none
    ∧ ∀ e, (post_org "acme" takenEmptyRemote).2 ≠ Except.error e := by
  refine ⟨rfl, rfl, rfl, ?_⟩
  intro e h
  have h2 : (Except.ok none : Except PyErr (Option Int)) = Except.error e := h
  exact Except.noConfusion h2

/-- Claim C1 (corrected): when create-organization answers name taken and no
listed organization has a name field equal to the requested name, post_org
returns None — a silent null result — rather than surfacing a
NotFound-style error. -/
theorem C1_amended (name : String) (remote : Remote) (orgs : List J)
    (hmsg : pyIndexStr remote.createOrgResp "message"
        = Except.ok (J.jstr "Organization name taken"))
    (hlist : remote.listOrgsResp = J.jarr orgs)
    (hnomatch : ∀ org ∈ orgs,
        ∃ v, pyIndexStr org "name" = Except.ok v ∧ pyEqStr v name = false) :
    (post_org name remote).2 = Except.ok none := by
  have hscan : scanOrgs name orgs = Except.ok none := by
    have h := scanOrgs_append name orgs [] hnomatch
    rwa [List.append_nil] at h
  simp only [post_org, hmsg, hlist, pyIter, pyEqStr]
  simp [hscan]

/-- Witness for C1 at the remote listing no organizations at all. -/
theorem C1_amended_witness :
    (post_org "acme" takenEmptyRemote).2 = Except.ok none :=
  C1_amended "acme" takenEmptyRemote [] rfl rfl (by simp)

/-- Claim C5 (confirmed): when create-organization answers name taken and
the organization list contains an entry whose name field equals the
requested name exactly (every entry before it having a different name),
post_org resolves to that entry's id as an integer. -/
theorem C5_thm (name : String) (remote : Remote) (pre post : List J)
    (fields : List (String × J)) (idv : J) (i : Int)
    (hmsg : pyIndexStr remote.createOrgResp "message"
        = Except.ok (J.jstr "Organization name taken"))
    (hlist : remote.listOrgsResp = J.jarr (pre ++ J.jobj fields :: post))
    (hpre : ∀ org ∈ pre,
        ∃ v, pyIndexStr org "name" = Except.ok v ∧ pyEqStr v name = false)
    (hname : pyIndexStr (J.jobj fields) "name" = Except.ok (J.jstr name))
    (hid : pyIndexStr (J.jobj fields) "id" = Except.ok idv)
    (hint : pyInt idv = Except.ok i) :
    (post_org name remote).2 = Except.ok (some i) := by
  have hscan : scanOrgs name (pre ++ J.jobj fields :: post) = Except.ok (some i) := by
    rw [scanOrgs_append name pre _ hpre]
    simp only [scanOrgs, hname, hid, hint, pyEqStr]
    simp
  simp only [post_org, hmsg, hlist, pyIter, pyEqStr]
  simp [hscan]

/-- Witness for C5 at the spec's example: name taken and the list holds
exactly one entry, id 7, named acme. -/
theorem C5_witness :
    (post_org "acme" takenListedRemote).2 = Except.ok (some 7) :=
  C5_thm "acme" takenListedRemote [] [] [("id", J.jnum 7), ("name", J.jstr "acme")]
    (J.jnum 7) 7 rfl rfl (by simp) rfl rfl rfl

/-- Counterexample to C7 as stated: an issue-key response carrying neither a
message field nor a key field makes create_api_token return the non-error
null result None instead of surfacing a Malformed-style error. -/
theorem C7_counterexample :
    pyContains (emptyIssueRemote.issueKeyResp "acme") "message" = Except.ok false
    ∧ pyContains (emptyIssueRemote.issueKeyResp "acme") "key" = Except.ok false
    ∧ (create_api_token "acme" emptyIssueRemote).2 = Except.ok none
    ∧ ∀ e, (create_api_token "acme" emptyIssueRemote).2 ≠ Except.error e := by
  refine ⟨rfl, rfl, rfl, ?_⟩
  intro e h
  have h2 : (Except.ok none : Except PyErr (Option J)) = Except.error e := h
  exact Except.noConfusion h2

/-- Claim C7 (corrected): an issue-key response with a message field raises
CreateAPITokenError carrying that message; one with a key field and no
message field returns the response as the credential record; one with
neither field returns None, a non-error null result, instead of an error. -/
theorem C7_amended :
    (∀ (name : String) (remote : Remote) (m : J),
        pyIndexStr (remote.issueKeyResp name) "message" = Except.ok m →
        (create_api_token name remote).2 = Except.error (PyErr.createAPITokenError m))
    ∧ (∀ (name : String) (remote : Remote),
        pyContains (remote.issueKeyResp name) "message" = Except.ok false →
        pyContains (remote.issueKeyResp name) "key" = Except.ok true →
        (create_api_token name remote).2 = Except.ok (some (remote.issueKeyResp name)))
    ∧ (∀ (name : String) (remote : Remote),
        pyContains (remote.issueKeyResp name) "message" = Except.ok false →
        pyContains (remote.issueKeyResp name) "key" = Except.ok false →
        (create_api_token name remote).2 = Except.ok none) := by
  refine ⟨?_, ?_, ?_⟩
  · intro name remote m hm
    have hc := pyIndexStr_ok_contains hm
    simp [create_api_token, hc, hm]
  · intro name remote h1 h2
    simp [create_api_token, h1, h2]
  · intro name remote h1 h2
    simp [create_api_token, h1, h2]

/-- Witness for C7 at a rejecting remote, a fresh remote, and a remote whose
issue-key response carries neither field. -/
theorem C7_amended_witness :
    (create_api_token "acme" rejectIssueRemote).2
        = Except.error (PyErr.createAPITokenError (J.jstr "quota reached"))
    ∧ (create_api_token "acme" freshRemote).2
        = Except.ok (some (freshRemote.issueKeyResp "acme"))
    ∧ (create_api_token "acme" emptyIssueRemote).2 = Except.ok none :=
  ⟨C7_amended.1 "acme" rejectIssueRemote (J.jstr "quota reached") rfl,
   C7_amended.2.1 "acme" freshRemote rfl rfl,
   C7_amended.2.2 "acme" emptyIssueRemote rfl rfl⟩

/-- Counterexample to C8 as stated: a create-organization response whose
message is the unrecognized string Something else makes post_org return the
non-error value None instead of surfacing an UnexpectedResponse-style
error. -/
theorem C8_counterexample :
    pyIndexStr oddMessageRemote.createOrgResp "message"
        = Except.ok (J.jstr "Something else")
    ∧ (post_org "acme" oddMessageRemote).2 = Except.ok none
    ∧ ∀ e, (post_org "acme" oddMessageRemote).2 ≠ Except.error e := by
  refine ⟨rfl, rfl, ?_⟩
  intro e h
  have h2 : (Except.ok none : Except PyErr (Option Int)) = Except.error e := h
  exact Except.noConfusion h2

/-- Claim C8 (corrected): a create-organization response whose message field
matches none of the three recognized strings makes post_org fall through
every branch and return None, a non-error value; a response with no message
field at all raises KeyError, an exception main does not catch. -/
theorem C8_amended :
    (∀ (name : String) (remote : Remote) (m : J),
        pyIndexStr remote.createOrgResp "message" = Except.ok m →
        pyEqStr m "Organization name taken" = false →
        pyEqStr m "Organization created" = false →
        pyEqStr m "invalid username or password" = false →
        (post_org name remote).2 = Except.ok none)
    ∧ (∀ (name : String) (remote : Remote) (fields : List (String × J)),
        remote.createOrgResp = J.jobj fields →
        fields.any (fun p => p.1 = "message") = false →
        (post_org name remote).2 = Except.error (PyErr.keyError "message")) := by
  constructor
  · intro name remote m hm h1 h2 h3
    simp [post_org, hm, h1, h2, h3]
  · intro name remote fields hf hany
    have hall := List.any_eq_false.mp hany
    have hfind : fields.find? (fun p => p.1 = "message") = none :=
      List.find?_eq_none.mpr fun x hx => hall x hx
    have hidx : pyIndexStr remote.createOrgResp "message"
        = Except.error (PyErr.keyError "message") := by
      rw [hf]
      simp only [pyIndexStr, hfind]
    simp [post_org, hidx]

/-- Witness for C8 at a remote with an unrecognized message and a remote
with no message field. -/
theorem C8_amended_witness :
    (post_org "acme" oddMessageRemote).2 = Except.ok none
    ∧ (post_org "acme" noMessageRemote).2 = Except.error (PyErr.keyError "message") :=
  ⟨C8_amended.1 "acme" oddMessageRemote (J.jstr "Something else") rfl rfl rfl rfl,
   C8_amended.2 "acme" noMessageRemote [("orgId", J.jnum 1)] rfl rfl⟩

end ApiKeyGen
